import Mathlib

/-!
Verification development for the PyDynDS repository.

Shallow embedding of the control-plane layer of PyDynDS:
the `SimulationController` lifecycle state machine
(src/pydynds/SimulationController.py), the `Model` worker's cycle-advance
and DynDCOP-snapshot selection (src/pydynds/Model/Model.py), the `Algorithm`
worker's stats handling (src/pydynds/Algorithms/Algorithm.py), and the
supervised-worker control loop (src/pydynds/common/pydyndsProcess.py).

Python exceptions are modelled with an explicit error type `PyErr` and
`Except`; Python objects are modelled as records; the few places where a
mutable reference is observable (the Algorithm stats dictionary) use an
explicit heap of stats records indexed by natural-number references.
-/

/-- The Python exceptions the embedded code can raise.
`invalidState` models the repository's `InvalidState(RuntimeError)`
(SimulationController.py line 18); `valueError` carries the message of the
`ValueError` raised by the Model property setters; `typeError` models the
`TypeError` Python raises for a bad operand or call arity; `queueError`
models a `multiprocessing.Queue.put` failure (caught as `Exception` in
`SimulationController.stop`); `recursionError` models `RecursionError` from
exceeding the interpreter recursion limit. -/
inductive PyErr where
  | invalidState (msg : String)
  | valueError (msg : String)
  | typeError
  | attributeError
  | indexError
  | queueError
  | recursionError
deriving Repr, DecidableEq

/-- Controller states, `SimulationController.states = Enum('States', 'STOPPED SETUP RUNNING PAUSED')`
(SimulationController.py line 48). -/
inductive CState where
  | STOPPED
  | SETUP
  | RUNNING
  | PAUSED
deriving Repr, DecidableEq

/-- `str()` of an enum member, as produced by `str(self.current_state)` in the
error messages of `setup` (line 104) and `start` (line 153). -/
def stateStr : CState → String
  | CState.STOPPED => "States.STOPPED"
  | CState.SETUP => "States.SETUP"
  | CState.RUNNING => "States.RUNNING"
  | CState.PAUSED => "States.PAUSED"

/-- A `multiprocessing.Queue` as seen by the controller: `id` is an allocation
generation (each `Queue()` call constructs a distinct object; `_init` assigns
fresh ids), and `broken` records whether a `put` on it raises (the
`except Exception` arm of `SimulationController.stop`, lines 175-177, exists
exactly because `put` can raise). -/
structure MPQueue where
  id : Nat
  broken : Bool
deriving Repr, DecidableEq

/-- `Queue.put`: succeeds unless the queue is in an erroring condition. -/
def MPQueue.put (q : MPQueue) : Except PyErr Unit :=
  if q.broken then Except.error PyErr.queueError else Except.ok ()

/-- The Algorithm worker as referenced by the controller: it owns one stats
dictionary, modelled as a reference into the stats heap (Algorithm.py
lines 61-62). -/
structure AlgorithmW where
  statsRef : Nat
deriving Repr, DecidableEq

/-- The fields of `SimulationController` set by `__init__`/`_init`
(SimulationController.py lines 50-95). Worker references are `Option`s
(`None` until `setup` constructs them); `qgen` is the next fresh queue
generation used when `_init` constructs seven new `Queue()` objects. -/
structure SimulationController where
  running : Bool
  paused : Bool
  finished : Bool
  current_state : CState
  algorithm : Option AlgorithmW
  algorithm_input_queue : MPQueue
  algorithm_output_queue : MPQueue
  algorithm_control_queue : MPQueue
  simulatorPresent : Bool
  simulator_input_queue : MPQueue
  simulator_output_queue : MPQueue
  modelPresent : Bool
  model_input_queue : MPQueue
  model_output_queue : MPQueue
  qgen : Nat
deriving Repr, DecidableEq

/-- `SimulationController._init` (lines 73-95): zero all flags, return to
STOPPED, drop all worker references and construct seven fresh queues. -/
def controllerInit (st : SimulationController) : SimulationController :=
  { running := false
    paused := false
    finished := false
    current_state := CState.STOPPED
    algorithm := none
    algorithm_input_queue := { id := st.qgen, broken := false }
    algorithm_output_queue := { id := st.qgen + 1, broken := false }
    algorithm_control_queue := { id := st.qgen + 2, broken := false }
    simulatorPresent := false
    simulator_input_queue := { id := st.qgen + 3, broken := false }
    simulator_output_queue := { id := st.qgen + 4, broken := false }
    modelPresent := false
    model_input_queue := { id := st.qgen + 5, broken := false }
    model_output_queue := { id := st.qgen + 6, broken := false }
    qgen := st.qgen + 7 }

/-- A freshly constructed `SimulationController()` (its `__init__` ends by
calling `_init`, line 71). -/
def initController : SimulationController :=
  controllerInit
    { running := false, paused := false, finished := false
      current_state := CState.STOPPED, algorithm := none
      algorithm_input_queue := { id := 0, broken := false }
      algorithm_output_queue := { id := 0, broken := false }
      algorithm_control_queue := { id := 0, broken := false }
      simulatorPresent := false
      simulator_input_queue := { id := 0, broken := false }
      simulator_output_queue := { id := 0, broken := false }
      modelPresent := false
      model_input_queue := { id := 0, broken := false }
      model_output_queue := { id := 0, broken := false }
      qgen := 0 }

/-- The call `Algorithm.factory(algorithm_name, **alg_kwargs)` made by
`SimulationController.setup` (lines 125-129). `alg_kwargs` carries the keys
`simulator`, `simulator_request_queue`, `simulator_response_queue`,
`model_request_queue`, `model_response_queue`, `control_queue` and
`initialDCOP`; `factory` (Algorithm.py lines 70-75) forwards them to the
chosen subclass constructor, but the parameters of `Algorithm.__init__` and
`SampleAlgorithm.__init__` (Algorithm.py lines 25-28 and 258-261) are
`algorithm_input_queue`, `algorithm_output_queue`, `simulator_input_queue`,
... - none of the supplied keys. So for every registered subclass the
constructor call raises `TypeError` for the unexpected keyword argument
`simulator`, and no Algorithm worker is ever constructed this way. -/
def Algorithm.factoryCall : Except PyErr AlgorithmW :=
  Except.error PyErr.typeError

/-- `SimulationController.setup` (lines 97-133): the STOPPED guard
(lines 103-104, raising `InvalidState` with `str` of the current state); the
construction of Model (line 107) and the `CURRENT_STATE` handshake request
put on the model queue (line 115); the construction of Simulator (line 121);
then the `Algorithm.factory` call (line 129), which always raises
`TypeError` (see `Algorithm.factoryCall`), so the transition to SETUP on
line 132 is never executed. The result pairs the controller with the raised
exception, if any, because the attribute assignments made before the raise
(`self.model`, `self.simulator`) persist while `current_state` stays
STOPPED and `algorithm` stays `None`. -/
def SimulationController.setup (st : SimulationController) :
    SimulationController × Option PyErr :=
  if st.current_state ≠ CState.STOPPED then
    (st, some (PyErr.invalidState
      ("Cannot setup a not stopped simulation. Current State: " ++ stateStr st.current_state)))
  else
    match st.model_input_queue.put with
    | Except.error e => ({ st with modelPresent := true }, some e)
    | Except.ok _ =>
      match Algorithm.factoryCall with
      | Except.error e =>
        ({ st with modelPresent := true, simulatorPresent := true }, some e)
      | Except.ok a =>
        ({ st with modelPresent := true, simulatorPresent := true,
                   algorithm := some a,
                   current_state := CState.SETUP }, none)

/-- `SimulationController.get_current_stats` (lines 135-141): returns
`self.algorithm.stats` - the attribute lookup on the live Algorithm
reference. When `algorithm` is `None` (STOPPED state, before any `setup` or
after `stop`), the lookup raises `AttributeError`; otherwise it yields the
reference to the worker's own stats dictionary (no copy is taken and no
inter-process round trip happens). -/
def SimulationController.get_current_stats (st : SimulationController) : Except PyErr Nat :=
  match st.algorithm with
  | none => Except.error PyErr.attributeError
  | some a => Except.ok a.statsRef

/-- `SimulationController.start` (lines 143-160): the SETUP guard, then START
put on the model, simulator and algorithm-control queues in that order
(lines 155-157), then the transition to RUNNING with `running = True`. -/
def SimulationController.start (st : SimulationController) : Except PyErr SimulationController :=
  if st.current_state ≠ CState.SETUP then
    Except.error (PyErr.invalidState
      ("Simulation is not setup. Current State: " ++ stateStr st.current_state))
  else
    match st.model_input_queue.put with
    | Except.error e => Except.error e
    | Except.ok _ =>
      match st.simulator_input_queue.put with
      | Except.error e => Except.error e
      | Except.ok _ =>
        match st.algorithm_control_queue.put with
        | Except.error e => Except.error e
        | Except.ok _ =>
          Except.ok { st with current_state := CState.RUNNING, running := true }

/-- True when the three STOP sends of `SimulationController.stop`
(lines 172-174: algorithm input, simulator input, model input) all succeed. -/
def stopSendOk (st : SimulationController) : Bool :=
  !st.algorithm_input_queue.broken && !st.simulator_input_queue.broken
    && !st.model_input_queue.broken

/-- `SimulationController.stop` (lines 162-179): a no-op from STOPPED
(lines 168-169); otherwise STOP is put on the algorithm-input, simulator-input
and model-input queues inside a `try`; if any `put` raises, the handler
prints the exception and returns with the controller untouched
(lines 175-177); only when all three sends succeed does `_init` run
(line 179). `stop` itself never raises. -/
def SimulationController.stop (st : SimulationController) : SimulationController :=
  if st.current_state = CState.STOPPED then st
  else
    match st.algorithm_input_queue.put with
    | Except.error _ => st
    | Except.ok _ =>
      match st.simulator_input_queue.put with
      | Except.error _ => st
      | Except.ok _ =>
        match st.model_input_queue.put with
        | Except.error _ => st
        | Except.ok _ => controllerInit st

/-- `SimulationController.pause` (lines 181-185). The guard is
`if not self.running and self.current_state is not ... RUNNING`; when it
fires, the raise statement first evaluates
`"Cannot pause a stopped simulation. Current State: " + self.current_state`,
concatenating a `str` with an Enum member, which raises `TypeError` before
any `InvalidState` is constructed (line 183). When the guard does not fire,
`paused` is set and the state becomes PAUSED (lines 184-185). -/
def SimulationController.pause (st : SimulationController) : Except PyErr SimulationController :=
  if st.running = false ∧ st.current_state ≠ CState.RUNNING then
    Except.error PyErr.typeError
  else
    Except.ok { st with paused := true, current_state := CState.PAUSED }

/-- `SimulationController.resume` (lines 187-189). The guard raises for any
state other than PAUSED (again a `TypeError` from the `str + Enum`
concatenation on line 189). After the guard the method body is empty: no
transition to RUNNING and no flag change is performed. -/
def SimulationController.resume (st : SimulationController) : Except PyErr SimulationController :=
  if st.current_state ≠ CState.PAUSED then
    Except.error PyErr.typeError
  else
    Except.ok st

/-- An entry of the Algorithm stats batches the Model reads: the code only
touches `item.startCycle` (Model/Model.py lines 218-221). -/
structure StatItem where
  startCycle : Int
deriving Repr, DecidableEq

/-- `_find_latest_start` (Model/Model.py lines 210-223). The body reads
`new_items[0].startCycle` first - on an empty sequence that subscript raises
`IndexError` - and then folds the maximum over the whole sequence (the first
element is compared against itself, which is the identity, so folding over
the tail from the head's value is the same). -/
def _find_latest_start (new_items : List StatItem) : Except PyErr Int :=
  match new_items with
  | [] => Except.error PyErr.indexError
  | first :: rest =>
    Except.ok (rest.foldl
      (fun acc m => if m.startCycle > acc then m.startCycle else acc)
      first.startCycle)

/-- A DCOP snapshot as the Model's selection loop sees it: only its start
cycle is inspected. Model/Model.py lines 191 and 193 spell the attribute
`startCyle`; we use the spec's spelling for the single field. -/
structure Snap where
  startCycle : Int
deriving Repr, DecidableEq

/-- The fields of `Model` set by `Model.__init__` (Model/Model.py
lines 22-49), private queue references omitted. -/
structure ModelState where
  dynDCOP : List Snap
  currentDCOP : Option Snap
  currentCycle : Int
  messageDelay : Int
  computationCost : Int
  running : Bool
  finished : Bool
  lastMessageID : Int
  lastComputationID : Int
deriving Repr, DecidableEq

/-- `Model._compute_messages_time` (lines 196-203):
`_find_latest_start(new_messages) - self._currentCycle + self.messageDelay`,
propagating the `IndexError` of an empty batch. -/
def Model.compute_messages_time (st : ModelState) (new_messages : List StatItem) :
    Except PyErr Int :=
  match _find_latest_start new_messages with
  | Except.error e => Except.error e
  | Except.ok last_first_cycle =>
    Except.ok (last_first_cycle - st.currentCycle + st.messageDelay)

/-- `Model._compute_computations_time` (lines 205-207), analogous with
`computationCost`. -/
def Model.compute_computations_time (st : ModelState) (new_computations : List StatItem) :
    Except PyErr Int :=
  match _find_latest_start new_computations with
  | Except.error e => Except.error e
  | Except.ok last_first_cycle =>
    Except.ok (last_first_cycle - st.currentCycle + st.computationCost)

/-- A call of a Python property setter. An assignment `obj.p = v` invokes the
setter function with two positional arguments (`self` and the value); when
the `def` declares fewer than two parameters Python raises `TypeError` for
the call itself and the body never runs. -/
def pythonSetterCall (paramCount : Nat) (body : Except PyErr Unit) : Except PyErr Unit :=
  if 2 ≤ paramCount then body else Except.error PyErr.typeError

/-- Setter of `Model.dynDCOP` (lines 65-67): `def dynDCOP(self, new_dyn_dcop=None)`,
two parameters, body raises `ValueError`. -/
def Model.set_dynDCOP : Except PyErr Unit :=
  pythonSetterCall 2 (Except.error (PyErr.valueError
    "dynDCOP is protected in Model. Change the setter property to allow modifications."))

/-- Setter of `Model.algorithm_input_queue` (lines 73-75). -/
def Model.set_algorithm_input_queue : Except PyErr Unit :=
  pythonSetterCall 2 (Except.error (PyErr.valueError
    "algorithm_input_queue is protected in Model. Change the setter property to allow modifications."))

/-- Setter of `Model.algorithm_output_queue` (lines 81-83). -/
def Model.set_algorithm_output_queue : Except PyErr Unit :=
  pythonSetterCall 2 (Except.error (PyErr.valueError
    "algorithm_output_queue is protected in Model. Change the setter property to allow modifications."))

/-- Setter of `Model.running` (lines 89-91). -/
def Model.set_running : Except PyErr Unit :=
  pythonSetterCall 2 (Except.error (PyErr.valueError
    "running is protected in Model. Change the setter property to allow modifications."))

/-- Setter of `Model.finished` (lines 97-99): `def finished(self)` declares
only `self`, so the assignment's two-argument call raises `TypeError` and
the `ValueError` in the body is unreachable. -/
def Model.set_finished : Except PyErr Unit :=
  pythonSetterCall 1 (Except.error (PyErr.valueError
    "finished is protected in Model. Change the setter property to allow modifications."))

/-- Setter of `Model.currentCycle` (lines 105-107). -/
def Model.set_currentCycle : Except PyErr Unit :=
  pythonSetterCall 2 (Except.error (PyErr.valueError
    "currentCycle is protected in Model. Change the setter property to allow modifications."))

/-- Setter of `Model.lastMessageID` (lines 113-115). -/
def Model.set_lastMessageID : Except PyErr Unit :=
  pythonSetterCall 2 (Except.error (PyErr.valueError
    "lastMessageID is protected in Model. Change the setter property to allow modifications."))

/-- Setter of `Model.lastComputationID` (lines 121-123). -/
def Model.set_lastComputationID : Except PyErr Unit :=
  pythonSetterCall 2 (Except.error (PyErr.valueError
    "lastComputationID is protected in Model. Change the setter property to allow modifications."))

/-- The `for dcop in self.dynDCOP` loop of `Model._update` (lines 190-194):
each entry with start cycle strictly greater than `currentCycle` overwrites
`currentDCOP`, and only inside that branch is `finished` set - under the
further condition that the same start cycle is strictly smaller than
`currentCycle`, which can never hold together with the enclosing test. -/
def Model.selectDCOPLoop : List Snap → Int → Option Snap → Bool → Option Snap × Bool
  | [], _, cur, fin => (cur, fin)
  | d :: rest, c, cur, fin =>
    if d.startCycle > c then
      Model.selectDCOPLoop rest c (some d) (if d.startCycle < c then true else fin)
    else
      Model.selectDCOPLoop rest c cur fin

/-- Lines 188-194 of `Model._update`: the loop above, guarded by
`if self._finished is not True`. -/
def Model.selectDCOP (st : ModelState) : ModelState :=
  if st.finished = true then st
  else
    let r := Model.selectDCOPLoop st.dynDCOP st.currentCycle st.currentDCOP st.finished
    { st with currentDCOP := r.1, finished := r.2 }

/-- The body of `Model._update` (Model/Model.py lines 179-194) after the two
stats batches have been fetched: compute the two advance times, then execute
`self.currentCycle = max(message_time, computation_time)` (line 186), which
invokes the `currentCycle` property setter; only if that assignment returned
normally would the snapshot-selection loop run on the advanced cycle. -/
def Model.updateFromStats (st : ModelState) (new_messages new_computations : List StatItem) :
    Except PyErr ModelState :=
  match Model.compute_messages_time st new_messages with
  | Except.error e => Except.error e
  | Except.ok message_time =>
    match Model.compute_computations_time st new_computations with
    | Except.error e => Except.error e
    | Except.ok computation_time =>
      match Model.set_currentCycle with
      | Except.error e => Except.error e
      | Except.ok _ =>
        Except.ok (Model.selectDCOP
          { st with currentCycle := max message_time computation_time })

/-- Line 176 of `Model._update`: `self.algorithm.newMessages`. The `Model`
class in Model/Model.py defines no `algorithm` attribute or property (its
`__init__` stores `_algorithm_input_queue` instead; only the separate draft
in src/pydynds/Model.py has an `algorithm` property), so the attribute
lookup raises `AttributeError`. -/
def Model.getAlgorithmAttr : Except PyErr (List StatItem × List StatItem) :=
  Except.error PyErr.attributeError

/-- `Model._update` in full (lines 168-194): fetch
`self.algorithm.newMessages` / `newComputations`, then `updateFromStats`. -/
def Model.update (st : ModelState) : Except PyErr ModelState :=
  match Model.getAlgorithmAttr with
  | Except.error e => Except.error e
  | Except.ok batches => Model.updateFromStats st batches.1 batches.2

/-- Spec-side definition (spec.md §3, DynDCOP invariant): the active snapshot
for cycle `c` is the last entry whose `startCycle` is at most `c`. Stated
from the spec's words for comparison with the source's selection loop. -/
def specActiveSnapshot (dcops : List Snap) (c : Int) : Option Snap :=
  dcops.foldl (fun acc d => if d.startCycle ≤ c then some d else acc) none

/-- Spec-side definition (spec.md §4.3 and §8): `finished` should become true
exactly when no entry lies beyond the newly active snapshot. -/
def specFinished (dcops : List Snap) (c : Int) : Bool :=
  match specActiveSnapshot dcops c with
  | none => false
  | some a => dcops.all (fun d => d.startCycle ≤ a.startCycle)

/-- True exactly on a successful (`ok`) result. -/
def exceptIsOk : Except PyErr ModelState → Bool
  | Except.ok _ => true
  | Except.error _ => false

/-- True exactly when the result is a raised `ValueError`. -/
def isValueErrorResult : Except PyErr Unit → Bool
  | Except.error (PyErr.valueError _) => true
  | _ => false

/-- `common.Message.Message` (Message.py): source id, destination id, opaque
payload; never mutated after construction. -/
structure Message where
  source : String
  destination : String
  data : Option String
deriving Repr, DecidableEq

/-- The Algorithm stats dictionary (Algorithm.py lines 61-62). No code in the
repository ever constructs a computation record, so the computation entries
keep the types of their initial values. -/
structure StatsData where
  total_messages : Nat
  total_computations : Nat
  last_message : Option Message
  last_computation : Option Unit
  unread_messages : List Message
  unread_computations : List Unit
deriving Repr, DecidableEq

/-- The initial stats dictionary built in `Algorithm.__init__` (lines 61-62). -/
def initialStats : StatsData :=
  { total_messages := 0, total_computations := 0, last_message := none,
    last_computation := none, unread_messages := [], unread_computations := [] }

/-- A heap of stats dictionaries: Python dict objects are mutable and shared
by reference, so aliasing between the worker's internal dict and returned
values is made observable by indexing dicts with references. -/
structure Heap where
  store : List StatsData
deriving Repr, DecidableEq

/-- Dereference a stats dictionary. -/
def Heap.read (h : Heap) (r : Nat) : Option StatsData :=
  h.store.get? r

/-- Mutate the stats dictionary behind reference `r` in place. -/
def Heap.write (h : Heap) (r : Nat) (v : StatsData) : Heap :=
  { store := h.store.set r v }

/-- Construct a fresh dictionary object holding `v`, returning its
reference. -/
def Heap.alloc (h : Heap) (v : StatsData) : Heap × Nat :=
  ({ store := h.store ++ [v] }, h.store.length)

/-- The pure content update performed by `Algorithm._send_message` under the
stats lock (Algorithm.py lines 188-191): increment `total_messages`, set
`last_message` to the new message, append it to `unread_messages`. -/
def Algorithm.sendMessageUpdate (s : StatsData) (m : Message) : StatsData :=
  { s with total_messages := s.total_messages + 1,
           last_message := some m,
           unread_messages := s.unread_messages ++ [m] }

/-- `Algorithm._send_message` (lines 175-191): construct the `Message`, then
mutate the worker's stats dictionary in place under the stats lock. The
function body has no `return` statement, so it returns `None` - it does not
return the constructed message. -/
def Algorithm.underscore_send_message (h : Heap) (a : AlgorithmW)
    (source destination : String) (data : Option String) : Except PyErr Heap :=
  match Heap.read h a.statsRef with
  | none => Except.error PyErr.attributeError
  | some s =>
    Except.ok (Heap.write h a.statsRef
      (Algorithm.sendMessageUpdate s { source := source, destination := destination, data := data }))

/-- `Algorithm.send_message` (lines 193-204): under the pause lock the body
executes `return self.send_message(source, destination, data)` - a call to
itself with the same arguments, not to `_send_message`. The pause lock is an
`RLock`, so re-entry succeeds and the recursion is unbounded; the first
argument is the remaining Python recursion budget, whose exhaustion is
`RecursionError`. -/
def Algorithm.send_message : Nat → Heap → AlgorithmW → String → String → Option String →
    Except PyErr (Heap × Message)
  | 0, _, _, _, _, _ => Except.error PyErr.recursionError
  | fuel + 1, h, a, s, d, dt => Algorithm.send_message fuel h a s d dt

/-- `Algorithm.get_stats` (lines 213-220): under the stats lock take
`copy.deepcopy(self.stats)` - a newly constructed dictionary with equal
contents and no shared mutable storage - and return it. -/
def Algorithm.get_stats (h : Heap) (a : AlgorithmW) : Except PyErr (Heap × Nat) :=
  match Heap.read h a.statsRef with
  | none => Except.error PyErr.attributeError
  | some s => Except.ok (Heap.alloc h s)

/-- The control-request codes of `request_messages`
(SimulatorMessages.py): STOP 0, START 1, PAUSE 2, RESUME 3, CURRENT_STATE 4,
SUCCESS 5, STATS 6. -/
def SUCCESS_MSG : Nat := 5

/-- The state a `pydyndsProcess` control loop acts on
(pydyndsProcess.py lines 15-28): the `_stop` flag, whether
`simulation_thread.start()` has already happened, the recursive pause-lock
hold count of the control thread, and the three channel references, each
possibly `None`. Queues hold request codes. -/
structure Worker where
  stopFlag : Bool
  threadStarted : Bool
  pauseLockCount : Nat
  input_queue : Option (List Nat)
  output_queue : Option (List Nat)
  message_event : Option Bool
deriving Repr, DecidableEq

/-- How one iteration of the `while` loop in `pydyndsProcess._control` ends:
fall through to the next iteration, execute the `break` of the STOP arm, or
die on an exception that no `except` arm catches. -/
inductive StepOut where
  | continueLoop
  | breakLoop
  | crashed
deriving Repr, DecidableEq

/-- `self._output_queue.put(...)`: `none` when the queue is `None`, in which
case the attempted `put` raises `AttributeError` (caught by the caller's
handler at line 62). -/
def Worker.putOutput (w : Worker) (m : Nat) : Option Worker :=
  match w.output_queue with
  | none => none
  | some q => some { w with output_queue := some (q ++ [m]) }

/-- The dispatch chain of `pydyndsProcess._control` (lines 44-59) for one
popped request. The base class `_special_control` returns `False`
(lines 66-72), so every request reaches the `if`/`elif` chain. START starts
the simulation thread (`Thread.start` raises `RuntimeError`, caught by no
handler, if the thread was already started) and replies SUCCESS; STOP runs
`_stop_control` (sets `_stop`), replies SUCCESS and breaks; PAUSE acquires
the pause lock and replies; RESUME releases it (releasing an unheld `RLock`
raises an uncaught `RuntimeError`) and replies; any other code falls through
every `elif` and the loop just continues. A SUCCESS reply attempted on an
absent output queue raises `AttributeError`, which the handler at line 62
turns into a plain continue. -/
def controlDispatch (w : Worker) (r : Nat) : Worker × StepOut :=
  if r = 1 then
    if w.threadStarted then (w, StepOut.crashed)
    else
      let w1 := { w with threadStarted := true }
      match w1.putOutput SUCCESS_MSG with
      | none => (w1, StepOut.continueLoop)
      | some w2 => (w2, StepOut.continueLoop)
  else if r = 0 then
    let w1 := { w with stopFlag := true }
    match w1.putOutput SUCCESS_MSG with
    | none => (w1, StepOut.continueLoop)
    | some w2 => (w2, StepOut.breakLoop)
  else if r = 2 then
    let w1 := { w with pauseLockCount := w.pauseLockCount + 1 }
    match w1.putOutput SUCCESS_MSG with
    | none => (w1, StepOut.continueLoop)
    | some w2 => (w2, StepOut.continueLoop)
  else if r = 3 then
    if w.pauseLockCount = 0 then (w, StepOut.crashed)
    else
      let w1 := { w with pauseLockCount := w.pauseLockCount - 1 }
      match w1.putOutput SUCCESS_MSG with
      | none => (w1, StepOut.continueLoop)
      | some w2 => (w2, StepOut.continueLoop)
  else (w, StepOut.continueLoop)

/-- One iteration of the `try` body of `pydyndsProcess._control`
(lines 38-63). `self._message_event.wait(1)` on a `None` event raises
`AttributeError`, caught at line 62 and turned into a continue; a timed-out
wait continues (lines 39-40); `self._input_queue.get(block=False)` on a
`None` queue raises `AttributeError`, likewise caught; an empty queue raises
`queue.Empty`, caught at line 60; a popped request goes to the dispatch
chain. -/
def controlIteration (w : Worker) : Worker × StepOut :=
  match w.message_event with
  | none => (w, StepOut.continueLoop)
  | some ev =>
    if ev = false then (w, StepOut.continueLoop)
    else
      match w.input_queue with
      | none => (w, StepOut.continueLoop)
      | some [] => (w, StepOut.continueLoop)
      | some (r :: rest) => controlDispatch { w with input_queue := some rest } r

/-- Outcome of running the `while not self._stop` loop of
`pydyndsProcess._control` for a bounded number of iterations:
`stillRunning` when the budget is exhausted with the loop still live. -/
inductive LoopResult where
  | stillRunning (w : Worker)
  | exited (w : Worker)
  | crashed (w : Worker)
deriving Repr, DecidableEq

/-- The `while not self._stop` loop of `pydyndsProcess._control`
(lines 36-63), run for at most `n` iterations. -/
def controlLoop : Nat → Worker → LoopResult
  | 0, w => LoopResult.stillRunning w
  | n + 1, w =>
    if w.stopFlag then LoopResult.exited w
    else
      match controlIteration w with
      | (w2, StepOut.continueLoop) => controlLoop n w2
      | (w2, StepOut.breakLoop) => LoopResult.exited w2
      | (w2, StepOut.crashed) => LoopResult.crashed w2

/-- A Model worker configured with `messageDelay = 2` and
`computationCost = 3` at cycle 0. -/
def c3State : ModelState :=
  { dynDCOP := [], currentDCOP := none, currentCycle := 0, messageDelay := 2,
    computationCost := 3, running := true, finished := false,
    lastMessageID := 0, lastComputationID := 0 }

/-- A controller in RUNNING state with a constructed Algorithm worker and
healthy channels. -/
def scRun : SimulationController :=
  { initController with
      current_state := CState.RUNNING
      running := true
      modelPresent := true
      simulatorPresent := true
      algorithm := some { statsRef := 0 } }

/-- A controller posed directly in PAUSED with the `running` flag still true -
the configuration the `pause()` assignments (lines 184-185) produce from
RUNNING. Unreachable through the API because `setup()` always raises, but
the class docstring (SimulationController.py lines 27-31) itself
contemplates direct access to components bypassing the state machine. -/
def scPaused : SimulationController :=
  { scRun with current_state := CState.PAUSED, paused := true }

/-- A RUNNING controller whose algorithm input channel errors on `put`. -/
def c4Broken : SimulationController :=
  { scRun with algorithm_input_queue := { id := 0, broken := true } }

/-- A controller after `setup`, whose Algorithm worker owns the stats
dictionary at reference 0. -/
def c7Controller : SimulationController :=
  { initController with
      current_state := CState.SETUP
      modelPresent := true
      simulatorPresent := true
      algorithm := some { statsRef := 0 } }

/-- The message `send_message('v1', 'v2', ...)` would record. -/
def c7Message : Message :=
  { source := "v1", destination := "v2", data := none }

/-- The stats dictionary after exactly one recorded message. -/
def c7StatsOne : StatsData :=
  { total_messages := 1, total_computations := 0, last_message := some c7Message,
    last_computation := none, unread_messages := [c7Message],
    unread_computations := [] }

/-- A supervised worker running untethered: no inbound control channel, wake
signal permanently set. -/
def c8Worker : Worker :=
  { stopFlag := false, threadStarted := false, pauseLockCount := 0,
    input_queue := none, output_queue := some [], message_event := some true }

/-- C1: the controller's lifecycle does not match the §4.5 transition table.
Already the first legal call diverges: `setup()` on a fresh STOPPED
controller raises `TypeError` - `Algorithm.factory` forwards keyword
arguments no Algorithm subclass constructor accepts - and leaves
`current_state` STOPPED with no Algorithm worker, instead of moving to
SETUP; RUNNING and PAUSED are therefore unreachable through the API
(`stop()` from STOPPED, the only other table entry still exercised, is a
no-op, as the table says). The pause/resume transitions are wrong at method
level too, shown on a directly-posed PAUSED controller with the stale
`running` flag true: `resume()` checks its guard and then does nothing,
leaving the state PAUSED instead of moving to RUNNING; `pause()` succeeds
from PAUSED (its guard `not self.running and ...` is defeated by the
`running` flag) instead of failing; and an illegal `pause()` or `resume()`
raises `TypeError` from concatenating the state enum onto a string, not an
invalid-state error naming the current state. -/
theorem C1_lifecycle_table_violated :
    (SimulationController.setup initController).2 = some PyErr.typeError ∧
    (SimulationController.setup initController).1.current_state = CState.STOPPED ∧
    (SimulationController.setup initController).1.algorithm = none ∧
    SimulationController.stop initController = initController ∧
    scPaused.current_state = CState.PAUSED ∧
    scPaused.running = true ∧
    SimulationController.resume scPaused = Except.ok scPaused ∧
    SimulationController.pause scPaused = Except.ok scPaused ∧
    SimulationController.pause initController = Except.error PyErr.typeError ∧
    SimulationController.resume initController = Except.error PyErr.typeError :=
  ⟨rfl, rfl, rfl, rfl, rfl, rfl, rfl, rfl, rfl, rfl⟩

/-- C2: the DynDCOP selection in `Model._update` does not implement the
last-entry-with-startCycle-at-most-c rule. With snapshots at 0, 10, 20 and
cycle 15 the loop leaves `currentDCOP` at the entry 20 (it overwrites on
`startCyle > currentCycle`, the reverse of the spec's rule) while the spec
rule names the entry 10; at cycle 20 and at cycle 25 the loop changes
nothing; and its `finished` condition, nested inside the strictly-greater
branch, is unsatisfiable, so `finished` is never set - in particular not at
cycle 25 where the spec rule demands it. -/
theorem C2_snapshot_selection_diverges :
    Model.selectDCOPLoop [⟨0⟩, ⟨10⟩, ⟨20⟩] 15 none false = (some ⟨20⟩, false) ∧
    specActiveSnapshot [⟨0⟩, ⟨10⟩, ⟨20⟩] 15 = some ⟨10⟩ ∧
    Model.selectDCOPLoop [⟨0⟩, ⟨10⟩, ⟨20⟩] 20 none false = (none, false) ∧
    specActiveSnapshot [⟨0⟩, ⟨10⟩, ⟨20⟩] 20 = some ⟨20⟩ ∧
    Model.selectDCOPLoop [⟨0⟩, ⟨10⟩, ⟨20⟩] 25 none false = (none, false) ∧
    specFinished [⟨0⟩, ⟨10⟩, ⟨20⟩] 25 = true ∧
    ∀ (dcops : List Snap) (c : Int) (cur : Option Snap),
      (Model.selectDCOPLoop dcops c cur false).2 = false := by
  refine ⟨rfl, rfl, rfl, rfl, rfl, rfl, ?_⟩
  intro dcops c cur
  induction dcops generalizing cur with
  | nil => rfl
  | cons d rest ih =>
    by_cases hgt : d.startCycle > c
    · have hlt : ¬ d.startCycle < c := by omega
      simp only [Model.selectDCOPLoop, if_pos hgt, if_neg hlt]
      exact ih (some d)
    · simp only [Model.selectDCOPLoop, if_neg hgt]
      exact ih cur

/-- C3: the cycle-advance value computed by the update step is the claimed
`max` of the message and computation times - at `messageDelay = 2`,
`computationCost = 3`, cycle 0, latest message start 5 and latest
computation start 4 both sides come to 7 - but the step never advances
`currentCycle`: the assignment on Model/Model.py line 186 goes through the
`currentCycle` property setter, which raises `ValueError`, and the full
`_update` faults even earlier because `self.algorithm` is not an attribute
of this Model class. -/
theorem C3_cycle_advance_computed_but_faults :
    Model.compute_messages_time c3State [⟨3⟩, ⟨5⟩] = Except.ok 7 ∧
    Model.compute_computations_time c3State [⟨4⟩] = Except.ok 7 ∧
    Model.updateFromStats c3State [⟨3⟩, ⟨5⟩] [⟨4⟩] = Except.error
      (PyErr.valueError
        "currentCycle is protected in Model. Change the setter property to allow modifications.") ∧
    Model.update c3State = Except.error PyErr.attributeError :=
  ⟨rfl, rfl, rfl, rfl⟩

/-- C4 counterexample: on a RUNNING controller whose algorithm input channel
errors on `put`, `stop()` takes the `except` arm and returns with the
controller untouched - it stays RUNNING with its old channels, instead of
returning to STOPPED with fresh channels as the claim states. -/
theorem C4_counterexample_stop_not_reset :
    SimulationController.stop c4Broken = c4Broken ∧
    (SimulationController.stop c4Broken).current_state = CState.RUNNING ∧
    (SimulationController.stop c4Broken).algorithm_input_queue.id = c4Broken.algorithm_input_queue.id :=
  ⟨rfl, rfl, rfl⟩

/-- C4 (amended): from any state other than STOPPED, `stop()` sends STOP to
all three workers and, when every send succeeds, unconditionally discards
and recreates all channels and worker references without waiting for any
acknowledgement, returning the controller to STOPPED with freshly
constructed queues and zeroed flags; when a send raises, `stop()` swallows
the error and returns with state, channels and workers unchanged. -/
theorem C4_amended_stop_reset (st : SimulationController)
    (h : st.current_state ≠ CState.STOPPED) :
    SimulationController.stop st = (if stopSendOk st then controllerInit st else st) ∧
    (controllerInit st).current_state = CState.STOPPED ∧
    (controllerInit st).running = false ∧
    (controllerInit st).paused = false ∧
    (controllerInit st).finished = false ∧
    (controllerInit st).algorithm = none ∧
    (controllerInit st).algorithm_input_queue = { id := st.qgen, broken := false } ∧
    (controllerInit st).model_output_queue = { id := st.qgen + 6, broken := false } := by
  refine ⟨?_, rfl, rfl, rfl, rfl, rfl, rfl, rfl⟩
  simp only [SimulationController.stop, stopSendOk, MPQueue.put, if_neg h]
  by_cases h1 : st.algorithm_input_queue.broken <;>
    by_cases h2 : st.simulator_input_queue.broken <;>
      by_cases h3 : st.model_input_queue.broken <;>
        simp [h1, h2, h3]

/-- Witness for the amended C4 theorem at a concrete RUNNING controller. -/
theorem C4_amended_stop_reset_witness :
    scRun.current_state ≠ CState.STOPPED ∧
    (SimulationController.stop scRun = (if stopSendOk scRun then controllerInit scRun else scRun) ∧
      (controllerInit scRun).current_state = CState.STOPPED ∧
      (controllerInit scRun).running = false ∧
      (controllerInit scRun).paused = false ∧
      (controllerInit scRun).finished = false ∧
      (controllerInit scRun).algorithm = none ∧
      (controllerInit scRun).algorithm_input_queue = { id := scRun.qgen, broken := false } ∧
      (controllerInit scRun).model_output_queue = { id := scRun.qgen + 6, broken := false }) :=
  ⟨by decide, C4_amended_stop_reset scRun (by decide)⟩

/-- C5: `send_message` never succeeds. Its body calls `self.send_message`
with the same arguments - itself, not `_send_message` - under the reentrant
pause lock, so every call recurses until the interpreter's recursion limit
and ends in `RecursionError`; no call increments `total_messages`, sets
`last_message`, appends to `unread_messages` or returns a constructed
`Message`, whatever the recursion budget. -/
theorem C5_send_message_never_returns :
    (∀ (fuel : Nat) (h : Heap) (a : AlgorithmW) (s d : String) (dt : Option String),
        Algorithm.send_message fuel h a s d dt = Except.error PyErr.recursionError) ∧
    Algorithm.send_message 1000 { store := [initialStats] } { statsRef := 0 } "v1" "v2" none
      = Except.error PyErr.recursionError := by
  have hAll : ∀ (fuel : Nat) (h : Heap) (a : AlgorithmW) (s d : String) (dt : Option String),
      Algorithm.send_message fuel h a s d dt = Except.error PyErr.recursionError := by
    intro fuel h a s d dt
    induction fuel with
    | zero => rfl
    | succ n ih => exact ih
  exact ⟨hAll, hAll 1000 { store := [initialStats] } { statsRef := 0 } "v1" "v2" none⟩

/-- C6: the latest-start computation is not guarded against an empty batch.
`_find_latest_start` subscripts `new_items[0]` unconditionally, so an empty
batch of new messages or computations raises `IndexError` instead of being
treated as no advance, and the fault propagates through
`_compute_messages_time` / `_compute_computations_time` into the update
step. -/
theorem C6_empty_batch_faults :
    _find_latest_start [] = Except.error PyErr.indexError ∧
    Model.compute_messages_time c3State [] = Except.error PyErr.indexError ∧
    Model.compute_computations_time c3State [] = Except.error PyErr.indexError ∧
    Model.updateFromStats c3State [] [] = Except.error PyErr.indexError :=
  ⟨rfl, rfl, rfl, rfl⟩

/-- C7: the worker's `get_stats` does return a fresh deep copy (reference 1,
distinct from the internal dictionary at reference 0, unchanged by later
sends), but the controller's `get_current_stats` returns the worker's live
stats dictionary itself (reference 0): after one `_send_message` the value
seen through that previously returned reference has changed from zero
messages to one, so the two read paths do not both return independent
copies. -/
theorem C7_get_current_stats_aliases_internal :
    SimulationController.get_current_stats c7Controller = Except.ok 0 ∧
    Algorithm.get_stats { store := [initialStats] } { statsRef := 0 }
      = Except.ok ({ store := [initialStats, initialStats] }, 1) ∧
    Algorithm.underscore_send_message { store := [initialStats, initialStats] }
        { statsRef := 0 } "v1" "v2" none
      = Except.ok { store := [c7StatsOne, initialStats] } ∧
    Heap.read { store := [initialStats, initialStats] } 0 = some initialStats ∧
    Heap.read { store := [c7StatsOne, initialStats] } 0 = some c7StatsOne ∧
    initialStats.total_messages = 0 ∧
    c7StatsOne.total_messages = 1 ∧
    Heap.read { store := [c7StatsOne, initialStats] } 1 = some initialStats :=
  ⟨rfl, rfl, rfl, rfl, rfl, rfl, rfl, rfl⟩

/-- C8: a supervised worker whose inbound control channel is `None` survives:
every iteration of `pydyndsProcess._control` catches the `AttributeError`
from touching the absent channel and continues as if no request were
available, leaving the worker unchanged, and the control loop neither
terminates nor crashes - after any number of iterations it is still
running. -/
theorem C8_absent_channel_loop_survives (n : Nat) (w : Worker)
    (hq : w.input_queue = none) (hs : w.stopFlag = false) :
    controlIteration w = (w, StepOut.continueLoop) ∧
    controlLoop n w = LoopResult.stillRunning w := by
  have hit : controlIteration w = (w, StepOut.continueLoop) := by
    rcases hev : w.message_event with _ | ev
    · simp [controlIteration, hev]
    · cases ev
      · simp [controlIteration, hev]
      · simp [controlIteration, hev, hq]
  have hloop : ∀ m : Nat, controlLoop m w = LoopResult.stillRunning w := by
    intro m
    induction m with
    | zero => rfl
    | succ k ih => simp [controlLoop, hs, hit, ih]
  exact ⟨hit, hloop n⟩

/-- Witness for C8 at a concrete untethered worker, run for five
iterations. -/
theorem C8_absent_channel_loop_survives_witness :
    c8Worker.input_queue = none ∧ c8Worker.stopFlag = false ∧
    (controlIteration c8Worker = (c8Worker, StepOut.continueLoop) ∧
      controlLoop 5 c8Worker = LoopResult.stillRunning c8Worker) :=
  ⟨rfl, rfl, C8_absent_channel_loop_survives 5 c8Worker rfl rfl⟩

/-- C9 counterexample: assigning to `Model.finished` does not raise
`ValueError`. Its setter is declared `def finished(self)` with no value
parameter, so the two-argument setter call raises `TypeError` and the
`ValueError` in its body is unreachable. -/
theorem C9_counterexample_finished_not_value_error :
    Model.set_finished = Except.error PyErr.typeError ∧
    isValueErrorResult Model.set_finished = false :=
  ⟨rfl, rfl⟩

/-- C9 (amended): every assignment to the public Model properties raises and
leaves the private field unchanged - `ValueError` for `dynDCOP`,
`algorithm_input_queue`, `algorithm_output_queue`, `running`,
`currentCycle`, `lastMessageID` and `lastComputationID`, but `TypeError` for
`finished`, whose setter lacks the value parameter; and the update step's
own assignment to `currentCycle` raises, so no Model update step that
reaches the cycle-advance assignment completes normally - `updateFromStats`
never returns a successor state. -/
theorem C9_amended_property_setters_raise :
    Model.set_dynDCOP = Except.error (PyErr.valueError
      "dynDCOP is protected in Model. Change the setter property to allow modifications.") ∧
    Model.set_algorithm_input_queue = Except.error (PyErr.valueError
      "algorithm_input_queue is protected in Model. Change the setter property to allow modifications.") ∧
    Model.set_algorithm_output_queue = Except.error (PyErr.valueError
      "algorithm_output_queue is protected in Model. Change the setter property to allow modifications.") ∧
    Model.set_running = Except.error (PyErr.valueError
      "running is protected in Model. Change the setter property to allow modifications.") ∧
    Model.set_currentCycle = Except.error (PyErr.valueError
      "currentCycle is protected in Model. Change the setter property to allow modifications.") ∧
    Model.set_lastMessageID = Except.error (PyErr.valueError
      "lastMessageID is protected in Model. Change the setter property to allow modifications.") ∧
    Model.set_lastComputationID = Except.error (PyErr.valueError
      "lastComputationID is protected in Model. Change the setter property to allow modifications.") ∧
    Model.set_finished = Except.error PyErr.typeError ∧
    ∀ (st : ModelState) (msgs comps : List StatItem),
      exceptIsOk (Model.updateFromStats st msgs comps) = false := by
  refine ⟨rfl, rfl, rfl, rfl, rfl, rfl, rfl, rfl, ?_⟩
  intro st msgs comps
  cases hm : Model.compute_messages_time st msgs with
  | error e => simp [Model.updateFromStats, hm, exceptIsOk]
  | ok mt =>
    cases hc : Model.compute_computations_time st comps with
    | error e => simp [Model.updateFromStats, hm, hc, exceptIsOk]
    | ok ct =>
      simp [Model.updateFromStats, hm, hc, exceptIsOk, Model.set_currentCycle,
        pythonSetterCall]

/-- C10: on a controller in STOPPED state - freshly constructed, or reset by
a successful `stop()` - no Algorithm worker exists (`algorithm` is `None`),
so `get_current_stats()` raises `AttributeError` from the `.stats` lookup
rather than returning zero-valued stats. -/
theorem C10_stats_in_stopped_raises :
    initController.algorithm = none ∧
    SimulationController.get_current_stats initController
      = Except.error PyErr.attributeError ∧
    (SimulationController.stop scRun).current_state = CState.STOPPED ∧
    (SimulationController.stop scRun).algorithm = none ∧
    SimulationController.get_current_stats (SimulationController.stop scRun)
      = Except.error PyErr.attributeError :=
  ⟨rfl, rfl, rfl, rfl, rfl⟩
